import Mathlib

/-!
Shallow embedding of the async SERP batch exporter (run_google_serp.py)
and its CLI wrapper (manage.py): JSON values with Python truthiness, the
response-to-row extraction functions, the retry loop shared by the two
fetch coroutines, the per-keyword orchestrator, the keyword loader and
main exit code, and a transition system for the concurrency-limiting
semaphore shared by all fetches.
-/

/-- JSON values as parsed from API responses.  Numbers are modelled as
integers (the only numeric fields the program produces or reads are ranks
and counts). -/
inductive Json where
  | null
  | bool (b : Bool)
  | num (n : Int)
  | str (s : String)
  | arr (elements : List Json)
  | obj (fields : List (String × Json))

/-- Python truthiness of a JSON value: None, False, 0, the empty string,
the empty list and the empty dict are falsy; everything else is truthy. -/
def Json.truthy : Json → Bool
  | .null => false
  | .bool b => b
  | .num n => n != 0
  | .str s => s != ""
  | .arr elements => !elements.isEmpty
  | .obj fields => !fields.isEmpty

/-- Python dict.get(key): the value bound to the key, or None when the key
is absent.  Every call site in the script applies .get to values taken
from a parsed JSON object; the non-dict case (which would raise in
Python) is totalised to null. -/
def Json.get : Json → String → Json
  | .obj fields, key =>
    match fields.find? (fun p => p.fst == key) with
    | some p => p.snd
    | none => .null
  | _, _ => .null

/-- Python `x or y`: y when x is falsy, x otherwise. -/
def Json.pyOr (x y : Json) : Json := if x.truthy then x else y

/-- Iteration over a value the script has already defaulted with `or []`;
the remaining truthy non-list case (which would raise in Python) is
totalised to the empty list. -/
def Json.asList : Json → List Json
  | .arr elements => elements
  | _ => []

/-- Python equality of a JSON value against a string literal: true exactly
when the value is that string. -/
def Json.eqStr : Json → String → Bool
  | .str s, t => s == t
  | _, _ => false

/-- Python truthiness of an Optional JSON value (None is falsy). -/
def pyTruthyOpt : Option Json → Bool
  | none => false
  | some j => j.truthy

/-- A CSV row: the dict literal built by the extraction functions. -/
abbrev Row := List (String × Json)

-- Configuration constants of run_google_serp.py.

/-- LOAD_GOOGLE_AI_MODE = True. -/
def LOAD_GOOGLE_AI_MODE : Bool := true

/-- MAX_CONCURRENT_REQUESTS = 20. -/
def MAX_CONCURRENT_REQUESTS : Nat := 20

/-- MAX_RETRIES = 3. -/
def MAX_RETRIES : Nat := 3

/-- RETRY_DELAY_BASE = 1.0 (seconds), modelled as a rational. -/
def RETRY_DELAY_BASE : ℚ := 1

/-- The backoff delay slept at loop index `attempt`:
RETRY_DELAY_BASE * (2 ** attempt). -/
def backoffDelay (attempt : Nat) : ℚ := RETRY_DELAY_BASE * 2 ^ attempt

/-- One row of _extract_ai_overview_rows: the dict appended for a single
reference, with the markdown value already resolved by the caller. -/
def aiOverviewRefRow (resultKeyword markdownValue ref : Json) : Row :=
  [("result_type", .str "ai_overview"),
   ("keyword", resultKeyword),
   ("domain", ref.get "domain"),
   ("references_source", (ref.get "source").pyOr (ref.get "title")),
   ("references_url", ref.get "url"),
   ("references_text", ref.get "text"),
   ("references_markdown", markdownValue)]

/-- _extract_ai_overview_rows: walks tasks → result → items, keeps items
of type "ai_overview", and emits one row per reference at the item level,
per reference of each sub-item, and per reference of each component of a
sub-item, resolving markdown fallbacks exactly as the source does. -/
def extract_ai_overview_rows (responseDict : Json) (keywordFallback : String) : List Row :=
  ((responseDict.get "tasks").pyOr (.arr [])).asList.flatMap (fun task =>
    let taskData := (task.get "data").pyOr (.obj [])
    let taskKeyword := (taskData.get "keyword").pyOr (.str keywordFallback)
    ((task.get "result").pyOr (.arr [])).asList.flatMap (fun result =>
      let resultKeyword := (result.get "keyword").pyOr taskKeyword
      ((result.get "items").pyOr (.arr [])).asList.flatMap (fun item =>
        if !(item.get "type").eqStr "ai_overview" then []
        else
          let aiMarkdown := item.get "markdown"
          let topRows := ((item.get "references").pyOr (.arr [])).asList.map
            (fun ref => aiOverviewRefRow resultKeyword (aiMarkdown.pyOr (.str "")) ref)
          let subRows := ((item.get "items").pyOr (.arr [])).asList.flatMap (fun subItem =>
            let subMarkdown := (subItem.get "markdown").pyOr (aiMarkdown.pyOr (.str ""))
            let refRows := ((subItem.get "references").pyOr (.arr [])).asList.map
              (fun ref => aiOverviewRefRow resultKeyword subMarkdown ref)
            let compRows := ((subItem.get "components").pyOr (.arr [])).asList.flatMap
              (fun component =>
                let compMarkdown := (component.get "markdown").pyOr subMarkdown
                ((component.get "references").pyOr (.arr [])).asList.map
                  (fun ref => aiOverviewRefRow resultKeyword (compMarkdown.pyOr (.str "")) ref))
            refRows ++ compRows)
          topRows ++ subRows)))

/-- _extract_organic_rows: walks tasks → result → items and emits one row
per item of type "organic". -/
def extract_organic_rows (responseDict : Json) (keywordFallback : String) : List Row :=
  ((responseDict.get "tasks").pyOr (.arr [])).asList.flatMap (fun task =>
    let taskData := (task.get "data").pyOr (.obj [])
    let taskKeyword := (taskData.get "keyword").pyOr (.str keywordFallback)
    ((task.get "result").pyOr (.arr [])).asList.flatMap (fun result =>
      let resultKeyword := (result.get "keyword").pyOr taskKeyword
      ((result.get "items").pyOr (.arr [])).asList.flatMap (fun item =>
        if !(item.get "type").eqStr "organic" then []
        else
          [[("result_type", Json.str "organic"),
            ("keyword", resultKeyword),
            ("page", item.get "page"),
            ("rank_group", item.get "rank_group"),
            ("rank_absolute", item.get "rank_absolute"),
            ("position", item.get "position"),
            ("domain", item.get "domain"),
            ("url", item.get "url"),
            ("title", item.get "title"),
            ("description", item.get "description"),
            ("extended_snippet", item.get "extended_snippet"),
            ("breadcrumb", item.get "breadcrumb"),
            ("website_name", item.get "website_name")]])))

/-- _extract_ai_mode_rows: walks tasks → result → items, keeps items of
type "ai_overview", and emits one summary row per item plus one row per
reference. -/
def extract_ai_mode_rows (responseDict : Json) (keywordFallback : String) : List Row :=
  ((responseDict.get "tasks").pyOr (.arr [])).asList.flatMap (fun task =>
    let taskData := (task.get "data").pyOr (.obj [])
    let taskKeyword := (taskData.get "keyword").pyOr (.str keywordFallback)
    ((task.get "result").pyOr (.arr [])).asList.flatMap (fun result =>
      let resultKeyword := (result.get "keyword").pyOr taskKeyword
      ((result.get "items").pyOr (.arr [])).asList.flatMap (fun item =>
        if !(item.get "type").eqStr "ai_overview" then []
        else
          let aiMarkdown := (item.get "markdown").pyOr (.str "")
          let references := ((item.get "references").pyOr (.arr [])).asList
          let primaryDomain :=
            match references.head? with
            | some firstRef => (firstRef.get "domain").pyOr (.str "")
            | none => .str ""
          let primaryUrl :=
            match references.head? with
            | some firstRef => (firstRef.get "url").pyOr (.str "")
            | none => .str ""
          let summaryRow : Row :=
            [("result_type", .str "ai_mode"),
             ("keyword", resultKeyword),
             ("ai_mode_summary", aiMarkdown),
             ("ai_mode_citations_count", .num references.length),
             ("ai_mode_primary_domain", primaryDomain),
             ("ai_mode_primary_url", primaryUrl),
             ("domain", primaryDomain)]
          let refRows := references.map (fun ref =>
            [("result_type", Json.str "ai_mode"),
             ("keyword", resultKeyword),
             ("domain", ref.get "domain"),
             ("references_source", (ref.get "source").pyOr (ref.get "title")),
             ("references_url", ref.get "url"),
             ("references_text", ref.get "text"),
             ("references_markdown", aiMarkdown),
             ("ai_mode_summary", Json.str ""),
             ("ai_mode_citations_count", Json.str ""),
             ("ai_mode_primary_domain", Json.str ""),
             ("ai_mode_primary_url", Json.str "")])
          summaryRow :: refRows)))

/-- The outcome of one HTTP attempt inside the retry loop, as the code
discriminates it: status 200 with a parsed JSON body, status 429, any
other status, an asyncio.TimeoutError, or an aiohttp.ClientError. -/
inductive AttemptOutcome where
  | status200 (body : Json)
  | status429
  | otherStatus
  | timeout
  | clientError

/-- Whether an attempt outcome sends the loop into another iteration when
further attempts remain. -/
def AttemptOutcome.isRetriable : AttemptOutcome → Bool
  | .status429 => true
  | .timeout => true
  | .clientError => true
  | _ => false

/-- Observable result of one fetch call: the returned Optional response,
the backoff delays slept (in order), and the number of attempts made. -/
structure FetchResult where
  result : Option Json
  delays : List ℚ
  attemptsUsed : Nat

/-- The retry loop `for attempt in range(MAX_RETRIES)` shared verbatim by
fetch_serp_data and fetch_ai_mode_data, driven by an oracle giving the
outcome of each attempt index.  `attempt` is the current loop index and
`remaining` the number of iterations left (so `attempt < MAX_RETRIES - 1`
in the source is `remaining ≠ 1`, i.e. the successor argument is
nonzero).  A 429 sleeps and continues unconditionally; timeout and client
errors sleep and continue only when another attempt remains; any other
non-200 status returns None at once; falling off the loop returns None. -/
def fetchRetryFrom (outcomes : Nat → AttemptOutcome) : Nat → Nat → FetchResult
  | _, 0 => ⟨none, [], 0⟩
  | attempt, remaining + 1 =>
    match outcomes attempt with
    | .status200 body => ⟨some body, [], 1⟩
    | .status429 =>
      let rest := fetchRetryFrom outcomes (attempt + 1) remaining
      ⟨rest.result, backoffDelay attempt :: rest.delays, rest.attemptsUsed + 1⟩
    | .otherStatus => ⟨none, [], 1⟩
    | .timeout =>
      if remaining = 0 then ⟨none, [], 1⟩
      else
        let rest := fetchRetryFrom outcomes (attempt + 1) remaining
        ⟨rest.result, backoffDelay attempt :: rest.delays, rest.attemptsUsed + 1⟩
    | .clientError =>
      if remaining = 0 then ⟨none, [], 1⟩
      else
        let rest := fetchRetryFrom outcomes (attempt + 1) remaining
        ⟨rest.result, backoffDelay attempt :: rest.delays, rest.attemptsUsed + 1⟩

/-- fetch_serp_data: the primary (organic + AI overview) fetch; its body
is the shared retry loop started at attempt 0 with MAX_RETRIES
iterations. -/
def fetch_serp_data (outcomes : Nat → AttemptOutcome) : FetchResult :=
  fetchRetryFrom outcomes 0 MAX_RETRIES

/-- fetch_ai_mode_data: the AI-mode fetch; the source duplicates the same
retry loop verbatim. -/
def fetch_ai_mode_data (outcomes : Nat → AttemptOutcome) : FetchResult :=
  fetchRetryFrom outcomes 0 MAX_RETRIES

/-- ProcessingStats: the shared mutable counters. -/
structure ProcessingStats where
  total : Nat := 0
  completed : Nat := 0
  failed : Nat := 0
  ai_overview_rows : Nat := 0
  organic_rows : Nat := 0
  ai_mode_rows : Nat := 0

/-- What one process_single_keyword call produces: the rows it returns,
the updated stats, and whether it issued the AI-mode fetch. -/
structure ProcessResult where
  rows : List Row
  stats : ProcessingStats
  aiModeFetchIssued : Bool

/-- process_single_keyword: runs the primary fetch; on a truthy response
extracts AI-overview rows then organic rows, optionally runs the AI-mode
fetch (whose rows are appended only on a truthy AI-mode response), and
increments `completed`; on a falsy or None response increments `failed`
and returns no rows.  The per-attempt outcomes of the two fetches are
supplied by the oracles. -/
def process_single_keyword (keyword : String)
    (serpOutcomes aiOutcomes : Nat → AttemptOutcome)
    (stats : ProcessingStats) : ProcessResult :=
  let serpResponse := (fetch_serp_data serpOutcomes).result
  match serpResponse with
  | some resp =>
    if resp.truthy then
      let aiOverviewRows := extract_ai_overview_rows resp keyword
      let organicRows := extract_organic_rows resp keyword
      let rowsPrimary := aiOverviewRows ++ organicRows
      let stats1 := { stats with
        ai_overview_rows := stats.ai_overview_rows + aiOverviewRows.length,
        organic_rows := stats.organic_rows + organicRows.length }
      if LOAD_GOOGLE_AI_MODE then
        match (fetch_ai_mode_data aiOutcomes).result with
        | some aiResp =>
          if aiResp.truthy then
            let aiModeRows := extract_ai_mode_rows aiResp keyword
            { rows := rowsPrimary ++ aiModeRows,
              stats := { stats1 with
                ai_mode_rows := stats1.ai_mode_rows + aiModeRows.length,
                completed := stats1.completed + 1 },
              aiModeFetchIssued := true }
          else
            { rows := rowsPrimary,
              stats := { stats1 with completed := stats1.completed + 1 },
              aiModeFetchIssued := true }
        | none =>
          { rows := rowsPrimary,
            stats := { stats1 with completed := stats1.completed + 1 },
            aiModeFetchIssued := true }
      else
        { rows := rowsPrimary,
          stats := { stats1 with completed := stats1.completed + 1 },
          aiModeFetchIssued := false }
    else
      { rows := [],
        stats := { stats with failed := stats.failed + 1 },
        aiModeFetchIssued := false }
  | none =>
    { rows := [],
      stats := { stats with failed := stats.failed + 1 },
      aiModeFetchIssued := false }

/-- Python str.strip(): removes whitespace from both ends of a string. -/
def py_strip (s : String) : String :=
  String.mk (((s.data.dropWhile Char.isWhitespace).reverse.dropWhile
    Char.isWhitespace).reverse)

/-- _load_keywords: None models a missing keywords file (which yields the
empty list); otherwise each line is stripped and kept when nonempty. -/
def load_keywords (fileLines : Option (List String)) : List String :=
  match fileLines with
  | none => []
  | some lines => (lines.map py_strip).filter (fun kw => kw != "")

/-- Observable outcome of main: its exit code and whether the async batch
run (the only network activity) was started. -/
structure MainResult where
  exitCode : Int
  networkStarted : Bool

/-- The source function main (Lean reserves the name main for entry
points, hence serpMain): loads the keywords; when the list is empty
(missing file or no nonempty lines) returns 1 without ever starting the
batch run, otherwise runs the batch and returns 0. -/
def serpMain (fileLines : Option (List String)) : MainResult :=
  let keywords := load_keywords fileLines
  if keywords.isEmpty then ⟨1, false⟩ else ⟨0, true⟩

-- Semaphore transition system for the batch scheduler.

/-- Phase of one logical fetch call (an organic or AI-mode call of some
process_single_keyword task): waiting to enter `async with semaphore`,
inside it running its attempt loop (holding one permit, with the number
of attempts made so far), or finished (permit released). -/
inductive TaskPhase where
  | waiting
  | holding (attemptsDone : Nat)
  | done

/-- Whether a phase holds a semaphore permit (its fetch is in flight). -/
def TaskPhase.isHolding : TaskPhase → Bool
  | .holding _ => true
  | _ => false

/-- State of the batch run: free permits of the shared
asyncio.Semaphore and the phase of every logical fetch call. -/
structure SemSystem where
  permits : Nat
  tasks : List TaskPhase

/-- Number of in-flight fetches: calls currently holding a permit. -/
def countHolding (tasks : List TaskPhase) : Nat :=
  tasks.countP TaskPhase.isHolding

/-- Initial state: the semaphore is created with
MAX_CONCURRENT_REQUESTS permits and every fetch call is waiting. -/
def initSystem (n : Nat) : SemSystem :=
  ⟨MAX_CONCURRENT_REQUESTS, List.replicate n .waiting⟩

/-- Steps of the batch run, as the event loop interleaves them: a waiting
call acquires a permit (only when one is free: the source permit count is
positive), an in-flight call performs another attempt of its retry loop
without touching the semaphore, or an in-flight call leaves the `async
with` block, releasing its permit.  A call never re-enters waiting: the
permit is held across all its retry attempts. -/
inductive SemStep : SemSystem → SemSystem → Prop where
  | acquire (permits : Nat) (tasks : List TaskPhase) (i : Nat)
      (htask : tasks[i]? = some .waiting) :
      SemStep ⟨permits + 1, tasks⟩ ⟨permits, tasks.set i (.holding 0)⟩
  | retryAttempt (permits : Nat) (tasks : List TaskPhase) (i n : Nat)
      (htask : tasks[i]? = some (.holding n)) :
      SemStep ⟨permits, tasks⟩ ⟨permits, tasks.set i (.holding (n + 1))⟩
  | release (permits : Nat) (tasks : List TaskPhase) (i n : Nat)
      (htask : tasks[i]? = some (.holding n)) :
      SemStep ⟨permits, tasks⟩ ⟨permits + 1, tasks.set i .done⟩

/-- Invariant of the semaphore system: free permits plus in-flight
fetches equals the semaphore capacity. -/
def SemInv (s : SemSystem) : Prop :=
  s.permits + countHolding s.tasks = MAX_CONCURRENT_REQUESTS

/-- The synthetic response of the spec test case: one task whose single
result has one item of type "organic" and one item of type "ai_overview"
holding exactly the two references r1 and r2. -/
def synthResponse (r1 r2 : Json) : Json :=
  .obj [("tasks", .arr [
    .obj [("result", .arr [
      .obj [("items", .arr [
        .obj [("type", .str "organic"), ("url", .str "https://example.com")],
        .obj [("type", .str "ai_overview"), ("references", .arr [r1, r2])]
      ])]
    ])]
  ])]

-- Helper lemmas about the retry loop.

/-- Splitting lemma: when the first k attempt outcomes are retriable and
at least one further iteration remains, the loop runs those k attempts,
sleeping the k corresponding backoff delays, and continues at attempt
a + k with k fewer iterations. -/
theorem fetchRetryFrom_skip (outcomes : Nat → AttemptOutcome) (k : Nat) :
    ∀ (a r : Nat), k < r →
    (∀ i, i < k → (outcomes (a + i)).isRetriable = true) →
    fetchRetryFrom outcomes a r =
      ⟨(fetchRetryFrom outcomes (a + k) (r - k)).result,
       (List.range k).map (fun i => backoffDelay (a + i)) ++
         (fetchRetryFrom outcomes (a + k) (r - k)).delays,
       (fetchRetryFrom outcomes (a + k) (r - k)).attemptsUsed + k⟩ := by
  induction k with
  | zero => intro a r _ _; simp
  | succ k ih =>
    intro a r hk h
    cases r with
    | zero => omega
    | succ r1 =>
      have h0 : (outcomes a).isRetriable = true := by
        have := h 0 (by omega)
        simpa using this
      have hshift : ∀ i, i < k → (outcomes (a + 1 + i)).isRetriable = true := by
        intro i hi
        have := h (i + 1) (by omega)
        have harg : a + (i + 1) = a + 1 + i := by omega
        rwa [harg] at this
      have hrange : (List.range (k + 1)).map (fun i => backoffDelay (a + i)) =
          backoffDelay a :: (List.range k).map (fun i => backoffDelay (a + 1 + i)) := by
        rw [List.range_succ_eq_map, List.map_cons, List.map_map]
        have hfun : ((fun i => backoffDelay (a + i)) ∘ Nat.succ) =
            (fun i => backoffDelay (a + 1 + i)) := by
          funext i
          have : a + Nat.succ i = a + 1 + i := by omega
          simp [Function.comp, this]
        simp [hfun]
      have hidx : a + 1 + k = a + (k + 1) := by omega
      have hrem : r1 - k = r1 + 1 - (k + 1) := by omega
      have hr1 : ¬ r1 = 0 := by omega
      cases ho : outcomes a with
      | status200 body => rw [ho] at h0; simp [AttemptOutcome.isRetriable] at h0
      | otherStatus => rw [ho] at h0; simp [AttemptOutcome.isRetriable] at h0
      | status429 =>
        show fetchRetryFrom outcomes a (r1 + 1) = _
        rw [show fetchRetryFrom outcomes a (r1 + 1) =
              ⟨(fetchRetryFrom outcomes (a + 1) r1).result,
               backoffDelay a :: (fetchRetryFrom outcomes (a + 1) r1).delays,
               (fetchRetryFrom outcomes (a + 1) r1).attemptsUsed + 1⟩ by
            simp [fetchRetryFrom, ho]]
        rw [ih (a + 1) r1 (by omega) hshift]
        rw [hrange, hidx, hrem]
        simp [List.cons_append]
        omega
      | timeout =>
        show fetchRetryFrom outcomes a (r1 + 1) = _
        rw [show fetchRetryFrom outcomes a (r1 + 1) =
              ⟨(fetchRetryFrom outcomes (a + 1) r1).result,
               backoffDelay a :: (fetchRetryFrom outcomes (a + 1) r1).delays,
               (fetchRetryFrom outcomes (a + 1) r1).attemptsUsed + 1⟩ by
            simp [fetchRetryFrom, ho, hr1]]
        rw [ih (a + 1) r1 (by omega) hshift]
        rw [hrange, hidx, hrem]
        simp [List.cons_append]
        omega
      | clientError =>
        show fetchRetryFrom outcomes a (r1 + 1) = _
        rw [show fetchRetryFrom outcomes a (r1 + 1) =
              ⟨(fetchRetryFrom outcomes (a + 1) r1).result,
               backoffDelay a :: (fetchRetryFrom outcomes (a + 1) r1).delays,
               (fetchRetryFrom outcomes (a + 1) r1).attemptsUsed + 1⟩ by
            simp [fetchRetryFrom, ho, hr1]]
        rw [ih (a + 1) r1 (by omega) hshift]
        rw [hrange, hidx, hrem]
        simp [List.cons_append]
        omega

/-- When no attempt ever yields status 200, the loop returns None. -/
theorem fetchRetryFrom_no_success (outcomes : Nat → AttemptOutcome)
    (h : ∀ i b, outcomes i ≠ .status200 b) :
    ∀ (r a : Nat), (fetchRetryFrom outcomes a r).result = none := by
  intro r
  induction r with
  | zero => intro a; rfl
  | succ r1 ih =>
    intro a
    cases ho : outcomes a with
    | status200 body => exact absurd ho (h a body)
    | status429 => simp [fetchRetryFrom, ho, ih]
    | otherStatus => simp [fetchRetryFrom, ho]
    | timeout =>
      by_cases hr : r1 = 0 <;> simp [fetchRetryFrom, ho, hr, ih]
    | clientError =>
      by_cases hr : r1 = 0 <;> simp [fetchRetryFrom, ho, hr, ih]

/-- C3: when the primary fetch sees HTTP 429 on exactly the first k
attempts with k < MAX_RETRIES and HTTP 200 on attempt k, fetch_serp_data
returns the parsed response, and the backoff delays slept before the
retries are RETRY_DELAY_BASE * 2^0, ..., RETRY_DELAY_BASE * 2^(k-1) in
that order. -/
theorem rate_limited_then_success_backoff (outcomes : Nat → AttemptOutcome)
    (body : Json) (k : Nat) (hk : k < MAX_RETRIES)
    (h429 : ∀ i, i < k → outcomes i = .status429)
    (h200 : outcomes k = .status200 body) :
    (fetch_serp_data outcomes).result = some body ∧
    (fetch_serp_data outcomes).delays = (List.range k).map backoffDelay := by
  have hretr : ∀ i, i < k → (outcomes (0 + i)).isRetriable = true := by
    intro i hi
    rw [Nat.zero_add, h429 i hi]
    rfl
  have hskip := fetchRetryFrom_skip outcomes k 0 MAX_RETRIES hk hretr
  obtain ⟨m, hm⟩ : ∃ m, MAX_RETRIES - k = m + 1 := ⟨MAX_RETRIES - k - 1, by omega⟩
  have hstep : fetchRetryFrom outcomes (0 + k) (MAX_RETRIES - k) = ⟨some body, [], 1⟩ := by
    rw [hm]
    simp [fetchRetryFrom, h200]
  rw [fetch_serp_data, hskip, hstep]
  exact ⟨rfl, by simp⟩

/-- Witness for C3 at k = 2: two rate-limited attempts then success, with
delays 1 and 2 seconds. -/
theorem rate_limited_then_success_backoff_witness :
    (fetch_serp_data (fun i => if i < 2 then .status429 else .status200 (.str "ok"))).result
        = some (.str "ok") ∧
    (fetch_serp_data (fun i => if i < 2 then .status429 else .status200 (.str "ok"))).delays
        = [1, 2] := by
  have h := rate_limited_then_success_backoff
      (fun i => if i < 2 then .status429 else .status200 (.str "ok")) (.str "ok") 2
      (by norm_num [MAX_RETRIES])
      (fun i hi => by simp [hi])
      (by norm_num)
  refine ⟨h.1, h.2.trans ?_⟩
  norm_num [List.range_succ, backoffDelay, RETRY_DELAY_BASE]

/-- C6: an HTTP status that is neither 200 nor 429 at attempt k (after k
retriable attempts) makes fetch_serp_data return Failure immediately: no
further attempt is made and no backoff delay is slept for that attempt,
however many attempts remain. -/
theorem non_transient_status_immediate_failure (outcomes : Nat → AttemptOutcome)
    (k : Nat) (hk : k < MAX_RETRIES)
    (hpre : ∀ i, i < k → (outcomes i).isRetriable = true)
    (hother : outcomes k = .otherStatus) :
    (fetch_serp_data outcomes).result = none ∧
    (fetch_serp_data outcomes).attemptsUsed = k + 1 ∧
    (fetch_serp_data outcomes).delays = (List.range k).map backoffDelay := by
  have hretr : ∀ i, i < k → (outcomes (0 + i)).isRetriable = true := by
    intro i hi
    rw [Nat.zero_add]
    exact hpre i hi
  have hskip := fetchRetryFrom_skip outcomes k 0 MAX_RETRIES hk hretr
  obtain ⟨m, hm⟩ : ∃ m, MAX_RETRIES - k = m + 1 := ⟨MAX_RETRIES - k - 1, by omega⟩
  have hstep : fetchRetryFrom outcomes (0 + k) (MAX_RETRIES - k) = ⟨none, [], 1⟩ := by
    rw [hm]
    simp [fetchRetryFrom, hother]
  rw [fetch_serp_data, hskip, hstep]
  exact ⟨rfl, by simp [Nat.add_comm], by simp⟩

/-- Witness for C6 at k = 0: a non-transient status on the very first
attempt ends the fetch after one attempt with no delay. -/
theorem non_transient_status_immediate_failure_witness :
    (fetch_serp_data (fun _ => .otherStatus)).result = none ∧
    (fetch_serp_data (fun _ => .otherStatus)).attemptsUsed = 0 + 1 ∧
    (fetch_serp_data (fun _ => .otherStatus)).delays = [] := by
  have h := non_transient_status_immediate_failure (fun _ => .otherStatus) 0
      (by norm_num [MAX_RETRIES]) (fun i hi => absurd hi (Nat.not_lt_zero i)) rfl
  exact ⟨h.1, h.2.1, h.2.2.trans (by simp)⟩

/-- C4 counterexample: an all-429 run and an all-timeout run do NOT sleep
the same sequence of backoff delays — the 429 branch sleeps after its
final attempt as well, while the timeout branch does not. -/
theorem retry_policy_timeout_vs_429_counterexample :
    (fetch_serp_data (fun _ => .status429)).delays ≠
    (fetch_serp_data (fun _ => .timeout)).delays := by
  have e1 : (fetch_serp_data (fun _ => .status429)).delays = [1, 2, 4] := by
    norm_num [fetch_serp_data, fetchRetryFrom, MAX_RETRIES, backoffDelay, RETRY_DELAY_BASE]
  have e2 : (fetch_serp_data (fun _ => .timeout)).delays = [1, 2] := by
    norm_num [fetch_serp_data, fetchRetryFrom, MAX_RETRIES, backoffDelay, RETRY_DELAY_BASE]
  rw [e1, e2]
  simp

/-- C4 (amended): a fetch whose attempts all yield timeout or transport
errors makes the same number of attempts as one whose attempts all yield
HTTP 429 (MAX_RETRIES each) and both end in Failure, but the delay
sequences differ: the timeout/transport path sleeps the delays for
attempts 0..MAX_RETRIES-2 only, while the 429 path additionally sleeps
RETRY_DELAY_BASE * 2^(MAX_RETRIES-1) after its final attempt. -/
theorem retry_policy_timeout_vs_429 (o429 oT : Nat → AttemptOutcome)
    (h429 : ∀ i, o429 i = .status429)
    (hT : ∀ i, oT i = .timeout ∨ oT i = .clientError) :
    (fetch_serp_data o429).result = none ∧
    (fetch_serp_data oT).result = none ∧
    (fetch_serp_data o429).attemptsUsed = MAX_RETRIES ∧
    (fetch_serp_data oT).attemptsUsed = MAX_RETRIES ∧
    (fetch_serp_data o429).delays = (List.range MAX_RETRIES).map backoffDelay ∧
    (fetch_serp_data oT).delays = (List.range (MAX_RETRIES - 1)).map backoffDelay := by
  have e429 : fetch_serp_data o429 =
      ⟨none, [backoffDelay 0, backoffDelay 1, backoffDelay 2], 3⟩ := by
    simp [fetch_serp_data, fetchRetryFrom, MAX_RETRIES, h429 0, h429 1, h429 2]
  have eT : fetch_serp_data oT = ⟨none, [backoffDelay 0, backoffDelay 1], 3⟩ := by
    rcases hT 0 with h0 | h0 <;> rcases hT 1 with h1 | h1 <;> rcases hT 2 with h2 | h2 <;>
      simp [fetch_serp_data, fetchRetryFrom, MAX_RETRIES, h0, h1, h2]
  rw [e429, eT]
  refine ⟨rfl, rfl, rfl, rfl, ?_, ?_⟩ <;> simp [List.range_succ, MAX_RETRIES]

/-- Witness for the amended C4 at the all-429 and all-timeout oracles. -/
theorem retry_policy_timeout_vs_429_witness :
    (fetch_serp_data (fun _ => .status429)).result = none ∧
    (fetch_serp_data (fun _ => .timeout)).result = none ∧
    (fetch_serp_data (fun _ => .status429)).attemptsUsed = MAX_RETRIES ∧
    (fetch_serp_data (fun _ => .timeout)).attemptsUsed = MAX_RETRIES ∧
    (fetch_serp_data (fun _ => .status429)).delays = (List.range MAX_RETRIES).map backoffDelay ∧
    (fetch_serp_data (fun _ => .timeout)).delays =
      (List.range (MAX_RETRIES - 1)).map backoffDelay :=
  retry_policy_timeout_vs_429 (fun _ => .status429) (fun _ => .timeout)
    (fun _ => rfl) (fun _ => Or.inl rfl)

/-- C1: when the primary fetch fails on every attempt (no attempt returns
status 200), process_single_keyword increments `failed` by exactly 1,
leaves `completed` unchanged, returns no rows, and never issues the
AI-mode fetch. -/
theorem primary_all_fail_counts_failed (keyword : String)
    (serpOutcomes aiOutcomes : Nat → AttemptOutcome) (stats : ProcessingStats)
    (h : ∀ i b, serpOutcomes i ≠ .status200 b) :
    (process_single_keyword keyword serpOutcomes aiOutcomes stats).stats.failed
        = stats.failed + 1 ∧
    (process_single_keyword keyword serpOutcomes aiOutcomes stats).stats.completed
        = stats.completed ∧
    (process_single_keyword keyword serpOutcomes aiOutcomes stats).rows = [] ∧
    (process_single_keyword keyword serpOutcomes aiOutcomes stats).aiModeFetchIssued
        = false := by
  have hres : (fetch_serp_data serpOutcomes).result = none :=
    fetchRetryFrom_no_success serpOutcomes h MAX_RETRIES 0
  simp [process_single_keyword, hres]

/-- Witness for C1: every attempt times out. -/
theorem primary_all_fail_counts_failed_witness :
    (process_single_keyword "kw" (fun _ => .timeout) (fun _ => .timeout)
        ⟨1, 0, 0, 0, 0, 0⟩).stats.failed = 0 + 1 ∧
    (process_single_keyword "kw" (fun _ => .timeout) (fun _ => .timeout)
        ⟨1, 0, 0, 0, 0, 0⟩).stats.completed = 0 ∧
    (process_single_keyword "kw" (fun _ => .timeout) (fun _ => .timeout)
        ⟨1, 0, 0, 0, 0, 0⟩).rows = [] ∧
    (process_single_keyword "kw" (fun _ => .timeout) (fun _ => .timeout)
        ⟨1, 0, 0, 0, 0, 0⟩).aiModeFetchIssued = false :=
  primary_all_fail_counts_failed "kw" (fun _ => .timeout) (fun _ => .timeout)
    ⟨1, 0, 0, 0, 0, 0⟩ (fun _ _ h => AttemptOutcome.noConfusion h)

/-- C2: for every keyword, exactly one of `completed` and `failed` is
incremented, each by exactly 1, and a keyword that increments `failed`
contributes no rows. -/
theorem keyword_counts_exclusive (keyword : String)
    (serpOutcomes aiOutcomes : Nat → AttemptOutcome) (stats : ProcessingStats) :
    ((process_single_keyword keyword serpOutcomes aiOutcomes stats).stats.completed
          = stats.completed + 1 ∧
      (process_single_keyword keyword serpOutcomes aiOutcomes stats).stats.failed
          = stats.failed) ∨
    ((process_single_keyword keyword serpOutcomes aiOutcomes stats).stats.completed
          = stats.completed ∧
      (process_single_keyword keyword serpOutcomes aiOutcomes stats).stats.failed
          = stats.failed + 1 ∧
      (process_single_keyword keyword serpOutcomes aiOutcomes stats).rows = []) := by
  cases hres : (fetch_serp_data serpOutcomes).result with
  | none => right; simp [process_single_keyword, hres]
  | some resp =>
    cases ht : resp.truthy with
    | false => right; simp [process_single_keyword, hres, ht]
    | true =>
      left
      cases hai : (fetch_ai_mode_data aiOutcomes).result with
      | none => simp [process_single_keyword, hres, ht, LOAD_GOOGLE_AI_MODE, hai]
      | some aiResp =>
        cases hat : aiResp.truthy <;>
          simp [process_single_keyword, hres, ht, LOAD_GOOGLE_AI_MODE, hai, hat]

/-- C5: when the primary fetch succeeds (returns a truthy parsed body),
`completed` is incremented exactly once and `failed` is untouched
whatever the AI-mode fetch does; when the AI-mode fetch fails, the rows
returned are exactly the AI-overview rows followed by the organic rows
of the primary response. -/
theorem primary_success_ai_mode_isolated (keyword : String)
    (serpOutcomes aiOutcomes : Nat → AttemptOutcome) (stats : ProcessingStats)
    (resp : Json) (h : (fetch_serp_data serpOutcomes).result = some resp)
    (ht : resp.truthy = true) :
    (process_single_keyword keyword serpOutcomes aiOutcomes stats).stats.completed
        = stats.completed + 1 ∧
    (process_single_keyword keyword serpOutcomes aiOutcomes stats).stats.failed
        = stats.failed ∧
    ((fetch_ai_mode_data aiOutcomes).result = none →
      (process_single_keyword keyword serpOutcomes aiOutcomes stats).rows =
        extract_ai_overview_rows resp keyword ++ extract_organic_rows resp keyword) := by
  cases hai : (fetch_ai_mode_data aiOutcomes).result with
  | none => simp [process_single_keyword, h, ht, LOAD_GOOGLE_AI_MODE, hai]
  | some aiResp =>
    cases hat : aiResp.truthy <;>
      simp [process_single_keyword, h, ht, LOAD_GOOGLE_AI_MODE, hai, hat]

/-- Witness for C5: the primary fetch succeeds at once with a nonempty
body and the AI-mode fetch fails with a non-transient status. -/
theorem primary_success_ai_mode_isolated_witness :
    (process_single_keyword "kw" (fun _ => .status200 (.obj [("tasks", .null)]))
        (fun _ => .otherStatus) ⟨1, 0, 0, 0, 0, 0⟩).stats.completed = 0 + 1 ∧
    (process_single_keyword "kw" (fun _ => .status200 (.obj [("tasks", .null)]))
        (fun _ => .otherStatus) ⟨1, 0, 0, 0, 0, 0⟩).stats.failed = 0 ∧
    ((fetch_ai_mode_data (fun _ => .otherStatus)).result = none →
      (process_single_keyword "kw" (fun _ => .status200 (.obj [("tasks", .null)]))
          (fun _ => .otherStatus) ⟨1, 0, 0, 0, 0, 0⟩).rows =
        extract_ai_overview_rows (.obj [("tasks", .null)]) "kw" ++
          extract_organic_rows (.obj [("tasks", .null)]) "kw") :=
  primary_success_ai_mode_isolated "kw" (fun _ => .status200 (.obj [("tasks", .null)]))
    (fun _ => .otherStatus) ⟨1, 0, 0, 0, 0, 0⟩ (.obj [("tasks", .null)]) rfl rfl

/-- C10: an HTTP 200 whose parsed JSON body is falsy (for example the
empty object) is returned by fetch_serp_data as a success, yet
process_single_keyword treats the keyword as failed: `failed` is
incremented, `completed` is not, no rows are emitted and the AI-mode
fetch is never issued. -/
theorem success_with_falsy_body_counts_failed (keyword : String)
    (serpOutcomes aiOutcomes : Nat → AttemptOutcome) (stats : ProcessingStats)
    (body : Json) (h : (fetch_serp_data serpOutcomes).result = some body)
    (hb : body.truthy = false) :
    (process_single_keyword keyword serpOutcomes aiOutcomes stats).stats.failed
        = stats.failed + 1 ∧
    (process_single_keyword keyword serpOutcomes aiOutcomes stats).stats.completed
        = stats.completed ∧
    (process_single_keyword keyword serpOutcomes aiOutcomes stats).rows = [] ∧
    (process_single_keyword keyword serpOutcomes aiOutcomes stats).aiModeFetchIssued
        = false := by
  simp [process_single_keyword, h, hb]

/-- Witness for C10: the first attempt returns 200 with the empty JSON
object. -/
theorem success_with_falsy_body_counts_failed_witness :
    (process_single_keyword "kw" (fun _ => .status200 (.obj [])) (fun _ => .timeout)
        ⟨1, 0, 0, 0, 0, 0⟩).stats.failed = 0 + 1 ∧
    (process_single_keyword "kw" (fun _ => .status200 (.obj [])) (fun _ => .timeout)
        ⟨1, 0, 0, 0, 0, 0⟩).stats.completed = 0 ∧
    (process_single_keyword "kw" (fun _ => .status200 (.obj [])) (fun _ => .timeout)
        ⟨1, 0, 0, 0, 0, 0⟩).rows = [] ∧
    (process_single_keyword "kw" (fun _ => .status200 (.obj [])) (fun _ => .timeout)
        ⟨1, 0, 0, 0, 0, 0⟩).aiModeFetchIssued = false :=
  success_with_falsy_body_counts_failed "kw" (fun _ => .status200 (.obj []))
    (fun _ => .timeout) ⟨1, 0, 0, 0, 0, 0⟩ (.obj []) rfl rfl

/-- C7: for any two reference values, the synthetic response with one
organic item and one ai_overview item holding exactly those two
references yields exactly 1 organic row and exactly 2 AI-overview rows,
whatever the fallback keyword. -/
theorem synthetic_response_row_counts (keyword : String) (r1 r2 : Json) :
    (extract_organic_rows (synthResponse r1 r2) keyword).length = 1 ∧
    (extract_ai_overview_rows (synthResponse r1 r2) keyword).length = 2 :=
  ⟨rfl, rfl⟩

/-- C8: when the keyword input is missing (None) or strips down to an
empty keyword list, main returns exit code 1 without starting the batch
run (no network activity); with a nonempty keyword list it runs the
batch and returns exit code 0. -/
theorem main_exit_codes (fileLines : Option (List String)) :
    ((fileLines = none ∨ load_keywords fileLines = []) →
      serpMain fileLines = ⟨1, false⟩) ∧
    (load_keywords fileLines ≠ [] → serpMain fileLines = ⟨0, true⟩) := by
  constructor
  · intro h
    have hempty : load_keywords fileLines = [] := by
      rcases h with h | h
      · rw [h]; rfl
      · exact h
    simp [serpMain, hempty]
  · intro h
    simp [serpMain, h]

/-- Witness for C8: a one-keyword file exits 0 having started the batch;
a missing file exits 1 without network activity. -/
theorem main_exit_codes_witness :
    serpMain (some ["kw"]) = ⟨0, true⟩ ∧ serpMain none = ⟨1, false⟩ :=
  ⟨(main_exit_codes (some ["kw"])).2 (by decide),
   (main_exit_codes none).1 (Or.inl rfl)⟩

-- Helper lemmas for the semaphore transition system.

/-- Setting index i of a list changes a countP total by swapping the
contribution of the old element for that of the new one. -/
theorem countP_set_swap {α : Type} (p : α → Bool) (l : List α) :
    ∀ (i : Nat) (v old : α), l[i]? = some old →
    (l.set i v).countP p + (if p old then 1 else 0) =
      l.countP p + (if p v then 1 else 0) := by
  induction l with
  | nil => intro i v old h; simp at h
  | cons x xs ih =>
    intro i v old h
    cases i with
    | zero =>
      simp at h
      subst h
      simp [List.countP_cons]
      omega
    | succ j =>
      simp at h
      have := ih j v old h
      simp [List.countP_cons]
      omega

/-- Every step of the batch run preserves the permit-accounting
invariant. -/
theorem semStep_preserves_inv {s t : SemSystem} (hstep : SemStep s t)
    (hinv : SemInv s) : SemInv t := by
  cases hstep with
  | acquire permits tasks i htask =>
    have hc := countP_set_swap TaskPhase.isHolding tasks i (.holding 0) .waiting htask
    simp [TaskPhase.isHolding] at hc
    simp [SemInv, countHolding] at hinv ⊢
    omega
  | retryAttempt permits tasks i n htask =>
    have hc := countP_set_swap TaskPhase.isHolding tasks i (.holding (n + 1))
      (.holding n) htask
    simp [TaskPhase.isHolding] at hc
    simp [SemInv, countHolding] at hinv ⊢
    omega
  | release permits tasks i n htask =>
    have hc := countP_set_swap TaskPhase.isHolding tasks i .done (.holding n) htask
    simp [TaskPhase.isHolding] at hc
    simp [SemInv, countHolding] at hinv ⊢
    omega

/-- The permit-accounting invariant holds in every reachable state. -/
theorem reachable_inv (n : Nat) (s : SemSystem)
    (h : Relation.ReflTransGen SemStep (initSystem n) s) : SemInv s := by
  induction h with
  | refl =>
    simp [SemInv, initSystem, countHolding, List.countP_replicate, TaskPhase.isHolding]
  | tail hsteps hstep ih => exact semStep_preserves_inv hstep ih

/-- C9: in every state reachable during a batch run, the number of
in-flight fetches (fetches holding a permit of the shared semaphore,
across both endpoints) is at most MAX_CONCURRENT_REQUESTS; free permits
plus in-flight fetches always equal the capacity, so a retrying call
keeps consuming its permit; and no step ever sends an in-flight call
back to waiting — it either performs another retry attempt while still
holding the permit or finishes and releases it. -/
theorem semaphore_inflight_bound (n : Nat) (s : SemSystem)
    (h : Relation.ReflTransGen SemStep (initSystem n) s) :
    countHolding s.tasks ≤ MAX_CONCURRENT_REQUESTS ∧
    s.permits + countHolding s.tasks = MAX_CONCURRENT_REQUESTS ∧
    (∀ (t : SemSystem) (i k : Nat), SemStep s t →
      s.tasks[i]? = some (TaskPhase.holding k) →
      t.tasks[i]? = some (TaskPhase.holding k) ∨
        t.tasks[i]? = some (TaskPhase.holding (k + 1)) ∨
        t.tasks[i]? = some TaskPhase.done) := by
  have hinv := reachable_inv n s h
  refine ⟨by simp [SemInv] at hinv; omega, hinv, ?_⟩
  intro t i k hstep hi
  cases hstep with
  | acquire permits tasks j htask =>
    by_cases hij : j = i
    · subst hij
      rw [htask] at hi
      simp at hi
    · left
      rw [List.getElem?_set_ne hij]
      exact hi
  | retryAttempt permits tasks j m htask =>
    by_cases hij : j = i
    · subst hij
      rw [htask] at hi
      simp at hi
      subst hi
      obtain ⟨hlen, _⟩ := List.getElem?_eq_some.mp htask
      right; left
      rw [List.getElem?_set_self hlen]
    · left
      rw [List.getElem?_set_ne hij]
      exact hi
  | release permits tasks j m htask =>
    by_cases hij : j = i
    · subst hij
      obtain ⟨hlen, _⟩ := List.getElem?_eq_some.mp htask
      right; right
      rw [List.getElem?_set_self hlen]
    · left
      rw [List.getElem?_set_ne hij]
      exact hi

/-- Witness for C9: after one acquire step from a one-call batch, one
fetch is in flight, within the bound, and 19 permits remain. -/
theorem semaphore_inflight_bound_witness :
    countHolding [TaskPhase.holding 0] ≤ MAX_CONCURRENT_REQUESTS ∧
    19 + countHolding [TaskPhase.holding 0] = MAX_CONCURRENT_REQUESTS := by
  have h := semaphore_inflight_bound 1 ⟨19, [TaskPhase.holding 0]⟩
    (Relation.ReflTransGen.single (SemStep.acquire 19 [TaskPhase.waiting] 0 rfl))
  exact ⟨h.1, h.2.1⟩
